import Mathlib

/-!
Shallow embedding of `scan_tools/laser_scan_matcher/src/laser_scan_matcher.cpp`
(class `scan_tools::LaserScanMatcher`).

Modelling conventions:
* C++ `double`/`float` values are modelled as exact rationals `ℚ`; floating-point
  rounding is not modelled.
* A `double` that may be NaN (cloud coordinates, allocator-default readings) is
  modelled as `Option ℚ`, with `none` standing for NaN / never-written.  All
  C++ comparisons against NaN are false, which the model reproduces explicitly.
* `tf::Transform` values produced and consumed by this file are planar rigid
  transforms (the source builds them with `setRPY(0, 0, theta)`); they are
  modelled as a translation `(x, y)` plus a planar rotation stored as the
  `(cos, sin)` pair of its rotation matrix, so that composition and inversion
  are exact rational arithmetic.
* The transcendental functions the source applies (`cos`, `sin`, `sqrt`,
  `atan2`, `tf::getYaw`) have no exact rational counterpart; they are passed in
  as an opaque bundle `Trig` and the theorems quantify over it, adding the one
  concrete fact a proof needs (for example that the yaw of the identity
  rotation is `0`) as an explicit hypothesis.
* External collaborators (the CSM solver `sm_icp`, the tf listener lookups) are
  inputs of each step: the solver answer and the lookup answers are arguments,
  with `Option` encoding lookup success/failure.
-/

namespace ScanTools

/-- Opaque bundle of the real-valued functions the source calls but whose exact
values no claim depends on: `cosq`/`sinq` model `cos`/`sin` used by
`setRPY(0,0,theta)`, `sqrtq` models `sqrt` in `PointCloudToLDP`, `atan2q`
models `atan2`, and `yawOf` models `tf::getYaw` on a planar rotation. -/
structure Trig where
  cosq : ℚ → ℚ
  sinq : ℚ → ℚ
  sqrtq : ℚ → ℚ
  atan2q : ℚ → ℚ → ℚ
  yawOf : ℚ × ℚ → ℚ

/-- Planar rotation, stored as the `(cos, sin)` entries of its rotation
matrix (the rotation part of a `tf::Transform` built by `setRPY(0,0,theta)`). -/
structure Rot2 where
  c : ℚ
  s : ℚ
deriving DecidableEq

/-- Identity rotation. -/
def Rot2.rid : Rot2 := ⟨1, 0⟩

/-- Composition of planar rotations (matrix product / angle addition). -/
def Rot2.comp (a b : Rot2) : Rot2 :=
  ⟨a.c * b.c - a.s * b.s, a.s * b.c + a.c * b.s⟩

/-- Inverse (transpose) of a planar rotation. -/
def Rot2.inv (a : Rot2) : Rot2 := ⟨a.c, -a.s⟩

/-- Planar rigid transform: the model of the `tf::Transform` values this file
builds and chains (translation `(x, y)`, planar rotation `rot`). -/
structure Tf2 where
  x : ℚ
  y : ℚ
  rot : Rot2
deriving DecidableEq

/-- Identity transform (`tf::Transform::getIdentity()` / `setIdentity()`). -/
def Tf2.tid : Tf2 := ⟨0, 0, Rot2.rid⟩

/-- Transform composition `a * b` of `tf::Transform`. -/
def Tf2.comp (a b : Tf2) : Tf2 :=
  ⟨a.x + a.rot.c * b.x - a.rot.s * b.y,
   a.y + a.rot.s * b.x + a.rot.c * b.y,
   a.rot.comp b.rot⟩

/-- Transform inverse `a.inverse()`. -/
def Tf2.inv (a : Tf2) : Tf2 :=
  ⟨-(a.rot.c * a.x + a.rot.s * a.y),
   -(a.rot.c * a.y - a.rot.s * a.x),
   a.rot.inv⟩

/-- `LaserScanMatcher::createTfFromXYTheta`: origin `(x, y, 0)`, rotation
`setRPY(0, 0, theta)` modelled through the opaque cosine/sine. -/
def createTfFromXYTheta (T : Trig) (x y theta : ℚ) : Tf2 :=
  ⟨x, y, ⟨T.cosq theta, T.sinq theta⟩⟩

/-- 2x2 rational matrix (model of the `Eigen::Matrix2f` covariance block). -/
structure Mat2 where
  a00 : ℚ
  a01 : ℚ
  a10 : ℚ
  a11 : ℚ
deriving DecidableEq

/-- Matrix product. -/
def Mat2.mul (m n : Mat2) : Mat2 :=
  ⟨m.a00 * n.a00 + m.a01 * n.a10, m.a00 * n.a01 + m.a01 * n.a11,
   m.a10 * n.a00 + m.a11 * n.a10, m.a10 * n.a01 + m.a11 * n.a11⟩

/-- Matrix transpose. -/
def Mat2.transpose (m : Mat2) : Mat2 := ⟨m.a00, m.a10, m.a01, m.a11⟩

/-- Rotation matrix of a planar rotation (`Eigen::Rotation2Df(yaw)` applied to
the yaw recovered by `getRPY`; for the planar rotations this file builds, that
matrix is exactly the stored `(cos, sin)` pair). -/
def rotMat (r : Rot2) : Mat2 := ⟨r.c, -r.s, r.s, r.c⟩

/-- `LaserScanMatcher::getLaserRotation(odom_pose)`: the source computes
`laser_in_fixed = odom_pose * laser_from_base_`, extracts its yaw by `getRPY`,
and returns the 2D rotation matrix of that yaw.  The cached member
`laser_from_base_` is passed explicitly. -/
def getLaserRotation (odom_pose laser_from_base : Tf2) : Mat2 :=
  rotMat (odom_pose.comp laser_from_base).rot

/-- One ray of a CSM `laser_data` (`LDP`) as this file fills it: `valid[i]`,
`readings[i]`, `theta[i]`, `cluster[i]`.  `none` models a `double` the repo
code never wrote (left at the csm allocator's NaN default) or a NaN result. -/
structure LDPoint where
  valid : Bool
  reading : Option ℚ
  theta : Option ℚ
  cluster : Int
deriving DecidableEq

/-- The csm allocator default for one ray.  Modelled from the external csm
library contract (`ld_alloc_new` zero-initializes `valid`, initializes
`readings` and `theta` to NaN, and `cluster` to `-1`); the repo code relies on
these defaults in the cloud NaN branch, which writes none of the
per-ray fields except `theta` and `cluster`. -/
def ldAllocPoint : LDPoint := ⟨false, none, none, -1⟩

/-- The slice of a CSM `laser_data` that this file writes and reads: the rays
plus `min_theta`/`max_theta`.  The placeholder pose triples
(`odometry`, `estimate`, `true_pose`) are only ever written with constants for
the external solver's benefit and are read by no claim, so they are not
modelled. -/
structure LDPm where
  points : List LDPoint
  min_theta : Option ℚ
  max_theta : Option ℚ
deriving DecidableEq

/-- The fields of `sensor_msgs::LaserScan` that `laserScanToLDP` and
`scanCallback` read. -/
structure ScanMsg where
  angle_min : ℚ
  angle_increment : ℚ
  range_min : ℚ
  range_max : ℚ
  ranges : List ℚ
  stamp : ℚ
deriving DecidableEq

/-- Body of the per-ray loop of `LaserScanMatcher::laserScanToLDP`: validity is
`range_min < r && r < range_max` (both strict); an invalid ray keeps its slot
with reading `-1`; `theta[i] = angle_min + i * angle_increment`;
`cluster[i] = -1`. -/
def scanPoint (msg : ScanMsg) (i : ℕ) (r : ℚ) : LDPoint :=
  if msg.range_min < r ∧ r < msg.range_max then
    ⟨true, some r, some (msg.angle_min + (i : ℚ) * msg.angle_increment), -1⟩
  else
    ⟨false, some (-1), some (msg.angle_min + (i : ℚ) * msg.angle_increment), -1⟩

/-- The per-ray loop of `laserScanToLDP`, carrying the running index. -/
def scanPoints (msg : ScanMsg) : ℕ → List ℚ → List LDPoint
  | _, [] => []
  | i, r :: rs => scanPoint msg i r :: scanPoints msg (i + 1) rs

/-- `LaserScanMatcher::laserScanToLDP`.  After the loop the source reads
`theta[0]` and `theta[n-1]` for `min_theta`/`max_theta`; on an empty `ranges`
array those reads are out of bounds (undefined behavior), modelled as `none`. -/
def laserScanToLDP (msg : ScanMsg) : Option LDPm :=
  match msg.ranges with
  | [] => none
  | r :: rs =>
    let pts := scanPoints msg 0 (r :: rs)
    some ⟨pts, (pts.head?).bind LDPoint.theta, (pts.getLast?).bind LDPoint.theta⟩

/-- One input point of the cloud callback (`pcl` point with z ignored);
`none` models a NaN coordinate. -/
structure CloudPt where
  x : Option ℚ
  y : Option ℚ
deriving DecidableEq

/-- The downsampling guard of `PointCloudToLDP`:
`dx = pa.x - pb.x; dy = pa.y - pb.y; d2 = dx*dx + dy*dy; d2 > max_d2`.
Any NaN coordinate makes the C++ comparison false. -/
def keepGt (max_d2 : ℚ) (pa pb : CloudPt) : Bool :=
  match pa.x, pa.y, pb.x, pb.y with
  | some ax, some ay, some bx, some bz =>
    decide ((ax - bx) * (ax - bx) + (ay - bz) * (ay - bz) > max_d2)
  | _, _, _, _ => false

/-- The greedy downsampling loop of `PointCloudToLDP`: walk the remaining
points, keeping a point exactly when its squared planar distance to the most
recently kept point (`cloud_f.points.back()`) strictly exceeds `max_d2`. -/
def downsampleFrom (max_d2 : ℚ) : CloudPt → List CloudPt → List CloudPt
  | _, [] => []
  | last, p :: ps =>
    if keepGt max_d2 last p then p :: downsampleFrom max_d2 p ps
    else downsampleFrom max_d2 last ps

/-- Body of the conversion loop of `PointCloudToLDP` for one kept point.
A NaN coordinate only logs, leaving `valid[i]`/`readings[i]` at the allocator
defaults while `theta[i] = atan2(NaN, _)` is NaN and `cluster[i] = -1`.
Otherwise `r = sqrt(x*x + y*y)`, validity is
`r > cloud_range_min && r < cloud_range_max`, invalid rays get reading `-1`,
and `theta[i] = atan2(y, x)`. -/
def cloudPoint (T : Trig) (cloud_range_min cloud_range_max : ℚ) (p : CloudPt) : LDPoint :=
  match p.x, p.y with
  | some px, some py =>
    let r := T.sqrtq (px * px + py * py)
    if cloud_range_min < r ∧ r < cloud_range_max then
      ⟨true, some r, some (T.atan2q py px), -1⟩
    else
      ⟨false, some (-1), some (T.atan2q py px), -1⟩
  | _, _ => { ldAllocPoint with theta := none, cluster := -1 }

/-- `LaserScanMatcher::PointCloudToLDP`.  The source unconditionally seeds the
filtered cloud with `cloud->points[0]`; on an empty cloud that access is out of
bounds (undefined behavior), modelled as `none`.  Otherwise the greedy
downsampling pass runs with `max_d2 = cloud_res * cloud_res`, the kept points
are converted, and `min_theta`/`max_theta` are `theta[0]`/`theta[n-1]`. -/
def PointCloudToLDP (T : Trig) (cloud_res cloud_range_min cloud_range_max : ℚ)
    (pts : List CloudPt) : Option LDPm :=
  match pts with
  | [] => none
  | p0 :: rest =>
    let kept := p0 :: downsampleFrom (cloud_res * cloud_res) p0 rest
    let out := kept.map (cloudPoint T cloud_range_min cloud_range_max)
    some ⟨out, (out.head?).bind LDPoint.theta, (out.getLast?).bind LDPoint.theta⟩

/-- The configuration read by `initParams` that the modelled functions use.
`kf_dist_linear` is stored unsquared; `newKeyframeNeeded` compares against
`kf_dist_linear * kf_dist_linear` exactly as `initParams` precomputes
`kf_dist_linear_sq_`. -/
structure Cfg where
  use_vel : Bool
  use_odom : Bool
  use_imu : Bool
  use_tf : Bool
  kf_dist_linear : ℚ
  kf_dist_angular : ℚ
  publish_pose : Bool
  publish_pose_stamped : Bool
  publish_pose_with_covariance : Bool
  publish_pose_with_covariance_stamped : Bool
  publish_tf : Bool
  do_compute_covariance : Bool
  position_covariance0 : ℚ
  position_covariance1 : ℚ
  orientation_covariance2 : ℚ
deriving DecidableEq

/-- The mutable members of `LaserScanMatcher` that the modelled functions read
and write.  `inited` models `initialized_`; `prev_ldp` models the reference
scan pointer `prev_ldp_scan_` (`none` before the first successful reading);
the `latest_*`/`received_*`/`last_used_*` fields model the prediction-source
snapshot filled by the imu/odom/vel callbacks.  The trigonometric ray cache
built by `createCache` is read only by the external solver and is not
modelled. -/
structure St where
  inited : Bool
  base_from_laser : Tf2
  laser_from_base : Tf2
  last_base_in_fixed : Tf2
  keyframe_base_in_fixed : Tf2
  prev_ldp : Option LDPm
  last_icp_time : ℚ
  latest_vel : ℚ × ℚ × ℚ
  received_odom : Bool
  latest_odom_pose : Tf2
  last_used_odom_pose : Tf2
  received_imu : Bool
  latest_imu_orientation : Rot2
  last_used_imu_orientation : Rot2
deriving DecidableEq

/-- The answer of the external CSM solver `sm_icp` for one cycle: `valid`,
the corrected pose `x[0..2]`, and (when covariance computation is enabled) the
entries of `cov_x_m` this file reads. -/
structure SmOut where
  valid : Bool
  x0 : ℚ
  x1 : ℚ
  x2 : ℚ
  cov00 : ℚ
  cov01 : ℚ
  cov10 : ℚ
  cov11 : ℚ
  cov22 : ℚ
deriving DecidableEq

/-- Observable trace of one `processScan` call: the two point sets handed to
the solver, the keyframe/last poses in effect at the call, the initial guess
`input_.first_guess`, the measured base-frame keyframe offset, and each
publication (`none` when that output is not produced this cycle).  Of the 6x6
covariance layout only the entries the source can make nonzero are carried:
the 2x2 position block and the yaw variance. -/
structure CycleOut where
  solver_ref : LDPm
  solver_cur : LDPm
  keyframe_in : Tf2
  last_in : Tf2
  first_guess : ℚ × ℚ × ℚ
  meas_keyframe_base_offset : Tf2
  pose2d : Option (ℚ × ℚ × ℚ)
  pose_stamped : Option (Tf2 × ℚ)
  pose_with_cov : Option (Tf2 × Mat2 × ℚ)
  pose_with_cov_stamped : Option (Tf2 × Mat2 × ℚ × ℚ)
  tf_broadcast : Option (Tf2 × ℚ)
deriving DecidableEq

/-- Observable trace of one `scanCallback` invocation: whether the static
base-laser transform was queried, whether the reading was dropped before
matching, and the `processScan` trace when matching ran. -/
structure StepOut where
  queried_static : Bool
  dropped : Bool
  cycle : Option CycleOut
deriving DecidableEq

/-- `LaserScanMatcher::newKeyframeNeeded(d)`: promote iff
`fabs(getYaw(d)) > kf_dist_angular_` or `x*x + y*y > kf_dist_linear_sq_`,
all comparisons strict. -/
def newKeyframeNeeded (T : Trig) (cfg : Cfg) (d : Tf2) : Bool :=
  if |T.yawOf (d.rot.c, d.rot.s)| > cfg.kf_dist_angular then true
  else if d.x * d.x + d.y * d.y > cfg.kf_dist_linear * cfg.kf_dist_linear then true
  else false

/-- `LaserScanMatcher::getPrediction(stamp)`.  Layered overwrite: identity,
then (if `use_vel_`) the integrated velocity, then (if `use_odom_` and
received) the odometry delta with one-shot baseline advance, then (if
`use_imu_` and received) the imu delta overwriting only the rotation with
one-shot baseline advance, then (if `use_tf_`) the tf lookup result replacing
everything on success and leaving the estimate untouched on failure.
The lookup answer between `last_icp_time_` and `stamp` is the external tf
listener's and is passed in as `tfLookup`.  Returns the prediction and the
updated state (the one-shot `last_used_*` advances). -/
def getPrediction (T : Trig) (cfg : Cfg) (st : St) (stamp : ℚ)
    (tfLookup : Option Tf2) : Tf2 × St :=
  let pred1 : Tf2 :=
    if cfg.use_vel then
      let dt := stamp - st.last_icp_time
      createTfFromXYTheta T (dt * st.latest_vel.1) (dt * st.latest_vel.2.1)
        (dt * st.latest_vel.2.2)
    else Tf2.tid
  let odomStep : Tf2 × St :=
    if cfg.use_odom && st.received_odom then
      (st.last_used_odom_pose.inv.comp st.latest_odom_pose,
       { st with last_used_odom_pose := st.latest_odom_pose })
    else (pred1, st)
  let imuStep : Tf2 × St :=
    if cfg.use_imu && st.received_imu then
      ({ odomStep.1 with rot := st.last_used_imu_orientation.inv.comp st.latest_imu_orientation },
       { odomStep.2 with last_used_imu_orientation := st.latest_imu_orientation })
    else odomStep
  let pred4 : Tf2 :=
    if cfg.use_tf then
      match tfLookup with
      | some t => t
      | none => imuStep.1
    else imuStep.1
  (pred4, imuStep.2)

/-- `LaserScanMatcher::processScan(curr_ldp_scan, time)`.  The reference scan
`prev` and current scan `curr` are passed explicitly (the source holds the
reference in `prev_ldp_scan_`); the external solver's answer `sm` and the tf
prediction lookup answer are inputs.  The placeholder pose triples the source
zeroes on the reference are not modelled (see `LDPm`). -/
def processScan (T : Trig) (cfg : Cfg) (st : St) (prev curr : LDPm) (time : ℚ)
    (tfLookup : Option Tf2) (sm : SmOut) : St × CycleOut :=
  let pr := getPrediction T cfg st time tfLookup
  let stP := pr.2
  let pred_base_in_fixed := st.last_base_in_fixed.comp pr.1
  let pred_keyframe_base_offset := st.keyframe_base_in_fixed.inv.comp pred_base_in_fixed
  let pred_keyframe_laser_offset :=
    (st.laser_from_base.comp pred_keyframe_base_offset).comp st.base_from_laser
  let fg : ℚ × ℚ × ℚ :=
    (pred_keyframe_laser_offset.x, pred_keyframe_laser_offset.y,
     T.yawOf (pred_keyframe_laser_offset.rot.c, pred_keyframe_laser_offset.rot.s))
  if sm.valid then
    let meas_keyframe_laser_offset := createTfFromXYTheta T sm.x0 sm.x1 sm.x2
    let meas := (st.base_from_laser.comp meas_keyframe_laser_offset).comp st.laser_from_base
    let new_pose := st.keyframe_base_in_fixed.comp meas
    -- `current_transform` equals the new pose; the optional
    -- `add_imu_roll_pitch_` leveling only alters the out-of-plane rotation
    -- components, which the planar model has no counterpart for.
    let current_transform := new_pose
    let xy_cov : Mat2 :=
      if cfg.do_compute_covariance then
        let rotation := getLaserRotation st.keyframe_base_in_fixed st.laser_from_base
        (rotation.mul ⟨sm.cov00, sm.cov01, sm.cov10, sm.cov11⟩).mul rotation.transpose
      else ⟨cfg.position_covariance0, 0, 0, cfg.position_covariance1⟩
    let yaw_cov : ℚ :=
      if cfg.do_compute_covariance then sm.cov22 else cfg.orientation_covariance2
    let promoted := newKeyframeNeeded T cfg meas
    let st2 : St :=
      { stP with
        last_base_in_fixed := new_pose,
        prev_ldp := some (if promoted then curr else prev),
        keyframe_base_in_fixed := if promoted then new_pose else stP.keyframe_base_in_fixed,
        last_icp_time := time }
    (st2,
     { solver_ref := prev, solver_cur := curr,
       keyframe_in := st.keyframe_base_in_fixed, last_in := st.last_base_in_fixed,
       first_guess := fg,
       meas_keyframe_base_offset := meas,
       pose2d :=
         if cfg.publish_pose then
           some (current_transform.x, current_transform.y,
                 T.yawOf (current_transform.rot.c, current_transform.rot.s))
         else none,
       pose_stamped :=
         if cfg.publish_pose_stamped then some (current_transform, time) else none,
       pose_with_cov :=
         if cfg.publish_pose_with_covariance then
           some (current_transform, xy_cov, yaw_cov)
         else none,
       pose_with_cov_stamped :=
         if cfg.publish_pose_with_covariance_stamped then
           some (current_transform, xy_cov, yaw_cov, time)
         else none,
       tf_broadcast :=
         if cfg.publish_tf then some (current_transform, time) else none })
  else
    let meas := Tf2.tid
    let promoted := newKeyframeNeeded T cfg meas
    let st2 : St :=
      { stP with
        prev_ldp := some (if promoted then curr else prev),
        keyframe_base_in_fixed :=
          if promoted then stP.last_base_in_fixed else stP.keyframe_base_in_fixed,
        last_icp_time := time }
    (st2,
     { solver_ref := prev, solver_cur := curr,
       keyframe_in := st.keyframe_base_in_fixed, last_in := st.last_base_in_fixed,
       first_guess := fg,
       meas_keyframe_base_offset := meas,
       pose2d := none, pose_stamped := none, pose_with_cov := none,
       pose_with_cov_stamped := none, tf_broadcast := none })

/-- The member assignments `scanCallback` performs on the first successful
reading: cache the static transform and its inverse, install the freshly
built reference scan, record its stamp, and mark the pipeline initialized. -/
def initCache (st : St) (t : Tf2) (prev0 : LDPm) (stamp : ℚ) : St :=
  { st with
    base_from_laser := t, laser_from_base := t.inv,
    prev_ldp := some prev0, last_icp_time := stamp, inited := true }

/-- `LaserScanMatcher::scanCallback(scan_msg)`.  While `initialized_` is false
the static base-laser transform is queried (`getBaseLaserTransform`, answered
by the external tf listener, passed in as `staticTf`): on failure the reading
is dropped; on success the transform and its inverse are cached, the same
reading becomes the reference scan, and processing continues.  In the steady
state the reading is converted and matched directly.  `none` marks the
undefined behavior of converting an empty reading (see `laserScanToLDP`) and
the unreachable steady state with no reference scan. -/
def scanCallback (T : Trig) (cfg : Cfg) (st : St) (msg : ScanMsg)
    (staticTf : Option Tf2) (tfLookup : Option Tf2) (sm : SmOut) :
    Option (St × StepOut) :=
  if st.inited then
    match st.prev_ldp with
    | none => none
    | some prev =>
      match laserScanToLDP msg with
      | none => none
      | some curr =>
        let r := processScan T cfg st prev curr msg.stamp tfLookup sm
        some (r.1, ⟨false, false, some r.2⟩)
  else
    match staticTf with
    | none => some (st, ⟨true, true, none⟩)
    | some t =>
      match laserScanToLDP msg with
      | none => none
      | some prev0 =>
        match laserScanToLDP msg with
        | none => none
        | some curr =>
          let r := processScan T cfg (initCache st t prev0 msg.stamp) prev0 curr
            msg.stamp tfLookup sm
          some (r.1, ⟨true, false, some r.2⟩)

/-- Concrete instantiation of the opaque real-valued functions, used by the
witness theorems. -/
def T0 : Trig := ⟨fun _ => 1, fun _ => 0, fun q => q, fun _ _ => 0, fun _ => 0⟩

/-- A one-ray point set used as a concrete reference scan in witnesses. -/
def ldpA : LDPm := ⟨[⟨true, some 1, some 0, -1⟩], some 0, some 0⟩

/-- A concrete two-ray scan message. -/
def scanMsgW : ScanMsg := ⟨0, 1, 0, 10, [5, 20], 0⟩

/-- The point set `laserScanToLDP` builds from `scanMsgW`. -/
def ldpW : LDPm := ⟨[⟨true, some 5, some 0, -1⟩, ⟨false, some (-1), some 1, -1⟩], some 0, some 1⟩

/-- A concrete configuration with every optional source and output disabled. -/
def cfgW : Cfg := ⟨false, false, false, false, 1/10, 1/10, false, false, false, false,
  false, false, 0, 0, 0⟩

/-- `cfgW` with all four prediction sources enabled. -/
def cfgTf : Cfg := { cfgW with use_vel := true, use_odom := true, use_imu := true, use_tf := true }

/-- A concrete steady state with every prediction source reporting data. -/
def stW : St :=
  ⟨true, Tf2.tid, Tf2.tid, Tf2.tid, Tf2.tid, some ldpA, 0, (1, 2, 3),
   true, ⟨1, 0, Rot2.rid⟩, Tf2.tid, true, ⟨0, 1⟩, Rot2.rid⟩

/-- `stW` before initialization. -/
def stU : St := { stW with inited := false }

/-- A concrete frame-lookup answer. -/
def tfW : Tf2 := ⟨3, 4, ⟨0, 1⟩⟩

/-- A concrete valid solver answer reporting a unit x-translation. -/
def smW : SmOut := ⟨true, 1, 0, 0, 0, 0, 0, 0, 0⟩

/-- A concrete failed solver answer. -/
def smBad : SmOut := ⟨false, 0, 0, 0, 0, 0, 0, 0, 0⟩

/-- A steady state whose cached sensor mount is rotated a quarter turn about z,
with the keyframe pose at the identity. -/
def stC4 : St :=
  ⟨true, ⟨0, 0, ⟨0, -1⟩⟩, ⟨0, 0, ⟨0, 1⟩⟩, Tf2.tid, Tf2.tid, some ldpA, 0, (0, 0, 0),
   false, Tf2.tid, Tf2.tid, false, Rot2.rid, Rot2.rid⟩

/-- `cfgW` with covariance computation and the covariance publication on. -/
def cfgC4 : Cfg :=
  { cfgW with do_compute_covariance := true, publish_pose_with_covariance := true }

/-- A valid solver answer with unit variance on x and zeros elsewhere. -/
def smC4 : SmOut := ⟨true, 0, 0, 0, 1, 0, 0, 0, 0⟩

theorem scanPoints_length (msg : ScanMsg) (i : ℕ) (rs : List ℚ) :
    (scanPoints msg i rs).length = rs.length := by
  induction rs generalizing i with
  | nil => rfl
  | cons r rs ih => simp [scanPoints, ih]

theorem scanPoints_getElem (msg : ScanMsg) (i j : ℕ) (rs : List ℚ) :
    (scanPoints msg i rs)[j]? = (rs[j]?).map (fun r => scanPoint msg (i + j) r) := by
  induction rs generalizing i j with
  | nil => simp [scanPoints]
  | cons r rs ih =>
    cases j with
    | zero => simp [scanPoints]
    | succ j =>
      simp only [scanPoints, List.getElem?_cons_succ, ih (i + 1) j]
      have hij : i + 1 + j = i + (j + 1) := by omega
      rw [hij]

theorem downsampleFrom_chain (max_d2 : ℚ) (last : CloudPt) (l : List CloudPt) :
    List.Chain' (fun a b => keepGt max_d2 a b = true)
      (last :: downsampleFrom max_d2 last l) := by
  induction l generalizing last with
  | nil => simp [downsampleFrom]
  | cons p ps ih =>
    by_cases h : keepGt max_d2 last p
    · simp only [downsampleFrom, if_pos h]
      exact List.chain'_cons.mpr ⟨h, ih p⟩
    · simp only [downsampleFrom, if_neg h]
      exact ih last

/-- Claim C6: for every range-shaped reading, the built point set preserves the
length of the ranges array, and sample `i` is valid iff its range lies strictly
between `range_min` and `range_max`; invalid samples keep their slot with
reading `-1` and cluster `-1`, and the bearing of sample `i` is
`angle_min + i * angle_increment`. -/
theorem laserScanToLDP_validity (msg : ScanMsg) (ldp : LDPm) (i : ℕ) (r : ℚ)
    (h : laserScanToLDP msg = some ldp) (hr : msg.ranges[i]? = some r) :
    ldp.points.length = msg.ranges.length ∧
    ldp.points[i]? = some
      ⟨decide (msg.range_min < r ∧ r < msg.range_max),
       if msg.range_min < r ∧ r < msg.range_max then some r else some (-1),
       some (msg.angle_min + (i : ℚ) * msg.angle_increment), -1⟩ := by
  cases hm : msg.ranges with
  | nil => simp [laserScanToLDP, hm] at h
  | cons r0 rs =>
    simp only [laserScanToLDP, hm] at h
    have hx := Option.some.inj h
    subst hx
    rw [hm] at hr
    refine ⟨?_, ?_⟩
    · exact scanPoints_length msg 0 (r0 :: rs)
    · dsimp only
      rw [scanPoints_getElem, hr]
      by_cases hc : msg.range_min < r ∧ r < msg.range_max
      · simp [scanPoint, hc]
      · simp [scanPoint, hc]

theorem laserScanToLDP_scanMsgW : laserScanToLDP scanMsgW = some ldpW := by
  norm_num [laserScanToLDP, scanMsgW, ldpW, scanPoints, scanPoint]

theorem laserScanToLDP_validity_witness :
    laserScanToLDP scanMsgW = some ldpW ∧ scanMsgW.ranges[0]? = some 5 ∧
    (ldpW.points.length = scanMsgW.ranges.length ∧
     ldpW.points[0]? = some
       ⟨decide (scanMsgW.range_min < 5 ∧ (5 : ℚ) < scanMsgW.range_max),
        if scanMsgW.range_min < 5 ∧ (5 : ℚ) < scanMsgW.range_max then some 5 else some (-1),
        some (scanMsgW.angle_min + ((0 : ℕ) : ℚ) * scanMsgW.angle_increment), -1⟩) :=
  ⟨laserScanToLDP_scanMsgW, by decide,
   laserScanToLDP_validity scanMsgW ldpW 0 5 laserScanToLDP_scanMsgW (by decide)⟩

/-- Claim C7: the greedy downsampling pass of the cloud builder keeps the first
point unconditionally, keeps each later point exactly when its squared planar
distance to the most recently kept point strictly exceeds the squared
resolution, and consequently every pair of consecutive kept points is strictly
farther apart than the resolution; the built point set has one ray per kept
point. -/
theorem cloud_downsample_spacing (T : Trig) (cloud_res cmin cmax : ℚ)
    (p0 : CloudPt) (rest : List CloudPt) :
    (∀ last q qs,
        downsampleFrom (cloud_res * cloud_res) last (q :: qs) =
          if keepGt (cloud_res * cloud_res) last q then
            q :: downsampleFrom (cloud_res * cloud_res) q qs
          else downsampleFrom (cloud_res * cloud_res) last qs) ∧
    (p0 :: downsampleFrom (cloud_res * cloud_res) p0 rest).head? = some p0 ∧
    List.Chain' (fun a b => keepGt (cloud_res * cloud_res) a b = true)
      (p0 :: downsampleFrom (cloud_res * cloud_res) p0 rest) ∧
    ∃ ldp, PointCloudToLDP T cloud_res cmin cmax (p0 :: rest) = some ldp ∧
      ldp.points.length = (p0 :: downsampleFrom (cloud_res * cloud_res) p0 rest).length :=
  ⟨fun _ _ _ => rfl, rfl, downsampleFrom_chain _ _ _,
   ⟨_, rfl, List.length_map _ _⟩⟩

/-- Claim C8 evaluation: on an empty reading both builders index element `0` of
a zero-length array (the scan builder when reading `theta[0]` for `min_theta`,
the cloud builder when seeding the filtered cloud with `points[0]`), which is
out of bounds; the model marks both undefined. -/
theorem builders_empty_input_out_of_bounds :
    laserScanToLDP ⟨0, 0, 0, 0, [], 0⟩ = none ∧
    PointCloudToLDP T0 1 0 1 [] = none :=
  ⟨rfl, rfl⟩

/-- Claim C5 counterexample: on a single-point cloud whose x coordinate is NaN,
the repo code's NaN branch writes neither `valid[i]` nor `readings[i]`, so the
built ray keeps the allocator defaults - its reading is not the `-1`
sentinel the claim states. -/
theorem cloud_nan_reading_counterexample :
    PointCloudToLDP T0 1 0 1 [⟨none, some 0⟩] =
      some ⟨[⟨false, none, none, -1⟩], none, none⟩ ∧
    (⟨false, none, none, -1⟩ : LDPoint).reading ≠ some (-1) :=
  ⟨rfl, by decide⟩

/-- Claim C5 as amended: a kept cloud point with a NaN coordinate still
occupies its slot in the built point set (length preserved), is left invalid
with its reading at the allocator's unset default (not `-1`) and an unclustered
`-1` cluster id, while every kept point with finite coordinates is processed by
the normal polar-conversion rule. -/
theorem cloud_nan_point_defaults (T : Trig) (cloud_res cmin cmax : ℚ)
    (p0 : CloudPt) (rest : List CloudPt) (ldp : LDPm)
    (h : PointCloudToLDP T cloud_res cmin cmax (p0 :: rest) = some ldp)
    (i : ℕ) (p : CloudPt)
    (hk : (p0 :: downsampleFrom (cloud_res * cloud_res) p0 rest)[i]? = some p) :
    ldp.points.length = (p0 :: downsampleFrom (cloud_res * cloud_res) p0 rest).length ∧
    ((p.x = none ∨ p.y = none) → ldp.points[i]? = some ⟨false, none, none, -1⟩) ∧
    (∀ px py, p.x = some px → p.y = some py →
      ldp.points[i]? = some
        (if cmin < T.sqrtq (px * px + py * py) ∧ T.sqrtq (px * px + py * py) < cmax then
          ⟨true, some (T.sqrtq (px * px + py * py)), some (T.atan2q py px), -1⟩
        else ⟨false, some (-1), some (T.atan2q py px), -1⟩)) := by
  simp only [PointCloudToLDP] at h
  have hx := Option.some.inj h
  subst hx
  refine ⟨List.length_map _ _, ?_, ?_⟩
  · intro hnan
    rw [List.getElem?_map, hk, Option.map_some']
    cases hpx : p.x with
    | none => simp [cloudPoint, hpx, ldAllocPoint]
    | some px =>
      cases hpy : p.y with
      | none => simp [cloudPoint, hpx, hpy, ldAllocPoint]
      | some py =>
        rcases hnan with hn | hn
        · rw [hpx] at hn; cases hn
        · rw [hpy] at hn; cases hn
  · intro px py hpx hpy
    rw [List.getElem?_map, hk, Option.map_some']
    simp [cloudPoint, hpx, hpy]

theorem cloud_nan_point_defaults_witness :
    PointCloudToLDP T0 1 0 1 [⟨none, some 0⟩] =
      some ⟨[⟨false, none, none, -1⟩], none, none⟩ ∧
    ((⟨none, some 0⟩ :: downsampleFrom (1 * 1) ⟨none, some 0⟩ [])[0]? =
      some (⟨none, some 0⟩ : CloudPt)) ∧
    ((⟨[⟨false, none, none, -1⟩], none, none⟩ : LDPm).points.length =
      ((⟨none, some 0⟩ : CloudPt) :: downsampleFrom (1 * 1) ⟨none, some 0⟩ []).length ∧
     (((⟨none, some 0⟩ : CloudPt).x = none ∨ (⟨none, some 0⟩ : CloudPt).y = none) →
       (⟨[⟨false, none, none, -1⟩], none, none⟩ : LDPm).points[0]? =
         some ⟨false, none, none, -1⟩) ∧
     (∀ px py, (⟨none, some 0⟩ : CloudPt).x = some px →
       (⟨none, some 0⟩ : CloudPt).y = some py →
       (⟨[⟨false, none, none, -1⟩], none, none⟩ : LDPm).points[0]? =
         some
           (if 0 < T0.sqrtq (px * px + py * py) ∧ T0.sqrtq (px * px + py * py) < 1 then
             ⟨true, some (T0.sqrtq (px * px + py * py)), some (T0.atan2q py px), -1⟩
           else ⟨false, some (-1), some (T0.atan2q py px), -1⟩))) :=
  ⟨rfl, by decide,
   cloud_nan_point_defaults T0 1 0 1 ⟨none, some 0⟩ [] _ rfl 0 ⟨none, some 0⟩ (by decide)⟩

theorem getPrediction_keeps (T : Trig) (cfg : Cfg) (st : St) (stamp : ℚ)
    (lk : Option Tf2) :
    (getPrediction T cfg st stamp lk).2.inited = st.inited ∧
    (getPrediction T cfg st stamp lk).2.base_from_laser = st.base_from_laser ∧
    (getPrediction T cfg st stamp lk).2.laser_from_base = st.laser_from_base ∧
    (getPrediction T cfg st stamp lk).2.last_base_in_fixed = st.last_base_in_fixed ∧
    (getPrediction T cfg st stamp lk).2.keyframe_base_in_fixed = st.keyframe_base_in_fixed ∧
    (getPrediction T cfg st stamp lk).2.prev_ldp = st.prev_ldp := by
  by_cases h2 : cfg.use_odom && st.received_odom <;>
    by_cases h3 : cfg.use_imu && st.received_imu <;>
      simp [getPrediction, h2, h3]

theorem processScan_keeps (T : Trig) (cfg : Cfg) (st : St) (prev curr : LDPm)
    (time : ℚ) (lk : Option Tf2) (sm : SmOut) :
    (processScan T cfg st prev curr time lk sm).1.inited = st.inited ∧
    (processScan T cfg st prev curr time lk sm).1.base_from_laser = st.base_from_laser ∧
    (processScan T cfg st prev curr time lk sm).1.laser_from_base = st.laser_from_base := by
  have hg := getPrediction_keeps T cfg st time lk
  cases hv : sm.valid <;>
    simp [processScan, hv, hg.1, hg.2.1, hg.2.2.1]

theorem processScan_trace (T : Trig) (cfg : Cfg) (st : St) (prev curr : LDPm)
    (time : ℚ) (lk : Option Tf2) (sm : SmOut) :
    (processScan T cfg st prev curr time lk sm).2.solver_ref = prev ∧
    (processScan T cfg st prev curr time lk sm).2.solver_cur = curr ∧
    (processScan T cfg st prev curr time lk sm).2.keyframe_in = st.keyframe_base_in_fixed ∧
    (processScan T cfg st prev curr time lk sm).2.last_in = st.last_base_in_fixed := by
  cases hv : sm.valid <;> simp [processScan, hv]

theorem processScan_prev_self (T : Trig) (cfg : Cfg) (st : St) (curr : LDPm)
    (time : ℚ) (lk : Option Tf2) (sm : SmOut) :
    (processScan T cfg st curr curr time lk sm).1.prev_ldp = some curr := by
  cases hv : sm.valid <;> simp [processScan, hv]

theorem laserScanToLDP_of_ne_nil (msg : ScanMsg) (hne : msg.ranges ≠ []) :
    ∃ ldp, laserScanToLDP msg = some ldp := by
  cases hm : msg.ranges with
  | nil => exact absurd hm hne
  | cons r rs =>
    refine ⟨⟨scanPoints msg 0 (r :: rs),
      ((scanPoints msg 0 (r :: rs)).head?).bind LDPoint.theta,
      ((scanPoints msg 0 (r :: rs)).getLast?).bind LDPoint.theta⟩, ?_⟩
    simp only [laserScanToLDP, hm]

/-- Claim C1: whenever the tf prediction source is enabled and the lookup
between the previous and current timestamps succeeds, the fused prediction is
exactly the lookup answer (translation and rotation), for every combination of
velocity/odometry/imu availability; when the lookup fails, the prediction is
exactly what the earlier sources produced (the same value the function
computes with the tf source disabled). -/
theorem getPrediction_tf_precedence (T : Trig) (cfg : Cfg) (st : St) (stamp : ℚ)
    (tfLookup : Option Tf2) :
    (∀ t, cfg.use_tf = true → tfLookup = some t →
      (getPrediction T cfg st stamp tfLookup).1 = t) ∧
    (tfLookup = none →
      (getPrediction T cfg st stamp tfLookup).1 =
        (getPrediction T { cfg with use_tf := false } st stamp none).1) := by
  constructor
  · intro t htf hl
    simp [getPrediction, htf, hl]
  · intro hl
    simp [getPrediction, hl]

theorem getPrediction_tf_precedence_witness :
    cfgTf.use_tf = true ∧ (getPrediction T0 cfgTf stW 1 (some tfW)).1 = tfW :=
  ⟨rfl, (getPrediction_tf_precedence T0 cfgTf stW 1 (some tfW)).1 tfW rfl rfl⟩

/-- Claim C2: the keyframe test promotes iff the absolute yaw of the measured
base-frame offset strictly exceeds the angular threshold or its squared planar
norm strictly exceeds the squared linear threshold (boundary-exact offsets do
not promote); on promotion the current point set becomes the reference and the
keyframe pose becomes the new pose, on non-promotion both are unchanged. -/
theorem newKeyframeNeeded_promotion (T : Trig) (cfg : Cfg) (d : Tf2) (st : St)
    (prev curr : LDPm) (time : ℚ) (lk : Option Tf2) (sm : SmOut)
    (hv : sm.valid = true) :
    (newKeyframeNeeded T cfg d = true ↔
      |T.yawOf (d.rot.c, d.rot.s)| > cfg.kf_dist_angular ∨
        d.x * d.x + d.y * d.y > cfg.kf_dist_linear * cfg.kf_dist_linear) ∧
    (newKeyframeNeeded T cfg
        (processScan T cfg st prev curr time lk sm).2.meas_keyframe_base_offset = true →
      (processScan T cfg st prev curr time lk sm).1.prev_ldp = some curr ∧
      (processScan T cfg st prev curr time lk sm).1.keyframe_base_in_fixed =
        (processScan T cfg st prev curr time lk sm).1.last_base_in_fixed) ∧
    (newKeyframeNeeded T cfg
        (processScan T cfg st prev curr time lk sm).2.meas_keyframe_base_offset = false →
      (processScan T cfg st prev curr time lk sm).1.prev_ldp = some prev ∧
      (processScan T cfg st prev curr time lk sm).1.keyframe_base_in_fixed =
        st.keyframe_base_in_fixed) := by
  have hg := getPrediction_keeps T cfg st time lk
  refine ⟨?_, ?_, ?_⟩
  · unfold newKeyframeNeeded
    split_ifs with h1 h2
    · simp [h1]
    · simp [h1, h2]
    · simp [h1, h2]
  · intro hkf
    simp only [processScan, hv, if_true] at hkf ⊢
    simp only [hkf] at *
    simp
  · intro hkf
    simp only [processScan, hv, if_true] at hkf ⊢
    simp only [hkf] at *
    simp [hg.2.2.2.2.1]

theorem newKeyframeNeeded_promotion_witness :
    smW.valid = true ∧
    ((newKeyframeNeeded T0 cfgW ⟨1, 0, Rot2.rid⟩ = true ↔
      |T0.yawOf ((⟨1, 0, Rot2.rid⟩ : Tf2).rot.c, (⟨1, 0, Rot2.rid⟩ : Tf2).rot.s)| >
          cfgW.kf_dist_angular ∨
        (⟨1, 0, Rot2.rid⟩ : Tf2).x * (⟨1, 0, Rot2.rid⟩ : Tf2).x +
            (⟨1, 0, Rot2.rid⟩ : Tf2).y * (⟨1, 0, Rot2.rid⟩ : Tf2).y >
          cfgW.kf_dist_linear * cfgW.kf_dist_linear) ∧
     (newKeyframeNeeded T0 cfgW
         (processScan T0 cfgW stW ldpA ldpW 0 none smW).2.meas_keyframe_base_offset = true →
       (processScan T0 cfgW stW ldpA ldpW 0 none smW).1.prev_ldp = some ldpW ∧
       (processScan T0 cfgW stW ldpA ldpW 0 none smW).1.keyframe_base_in_fixed =
         (processScan T0 cfgW stW ldpA ldpW 0 none smW).1.last_base_in_fixed) ∧
     (newKeyframeNeeded T0 cfgW
         (processScan T0 cfgW stW ldpA ldpW 0 none smW).2.meas_keyframe_base_offset = false →
       (processScan T0 cfgW stW ldpA ldpW 0 none smW).1.prev_ldp = some ldpA ∧
       (processScan T0 cfgW stW ldpA ldpW 0 none smW).1.keyframe_base_in_fixed =
         stW.keyframe_base_in_fixed)) :=
  ⟨rfl, newKeyframeNeeded_promotion T0 cfgW ⟨1, 0, Rot2.rid⟩ stW ldpA ldpW 0 none smW rfl⟩

/-- Claim C3: on a reading whose solver answer is invalid, the measured
keyframe offset is taken as identity, none of the four pose messages and no
frame broadcast is produced, and the platform pose, reference point set and
keyframe pose are all unchanged (given the configured angular threshold is
nonnegative and yaw of the identity rotation is zero). -/
theorem processScan_invalid_no_output (T : Trig) (cfg : Cfg) (st : St)
    (prev curr : LDPm) (time : ℚ) (lk : Option Tf2) (sm : SmOut)
    (hv : sm.valid = false) (hy : T.yawOf (1, 0) = 0)
    (ha : 0 ≤ cfg.kf_dist_angular) :
    (processScan T cfg st prev curr time lk sm).2.meas_keyframe_base_offset = Tf2.tid ∧
    (processScan T cfg st prev curr time lk sm).2.pose2d = none ∧
    (processScan T cfg st prev curr time lk sm).2.pose_stamped = none ∧
    (processScan T cfg st prev curr time lk sm).2.pose_with_cov = none ∧
    (processScan T cfg st prev curr time lk sm).2.pose_with_cov_stamped = none ∧
    (processScan T cfg st prev curr time lk sm).2.tf_broadcast = none ∧
    (processScan T cfg st prev curr time lk sm).1.last_base_in_fixed =
      st.last_base_in_fixed ∧
    (processScan T cfg st prev curr time lk sm).1.prev_ldp = some prev ∧
    (processScan T cfg st prev curr time lk sm).1.keyframe_base_in_fixed =
      st.keyframe_base_in_fixed := by
  have hg := getPrediction_keeps T cfg st time lk
  have hnk : newKeyframeNeeded T cfg Tf2.tid = false := by
    unfold newKeyframeNeeded
    have h1 : ¬(|T.yawOf (Tf2.tid.rot.c, Tf2.tid.rot.s)| > cfg.kf_dist_angular) := by
      show ¬(|T.yawOf (1, 0)| > cfg.kf_dist_angular)
      rw [hy]
      simpa using not_lt.mpr ha
    have h2 : ¬(Tf2.tid.x * Tf2.tid.x + Tf2.tid.y * Tf2.tid.y >
        cfg.kf_dist_linear * cfg.kf_dist_linear) := by
      show ¬((0 : ℚ) * 0 + 0 * 0 > cfg.kf_dist_linear * cfg.kf_dist_linear)
      simpa using not_lt.mpr (mul_self_nonneg cfg.kf_dist_linear)
    rw [if_neg h1, if_neg h2]
  simp [processScan, hv, hnk, hg.2.2.2.1, hg.2.2.2.2.1]

theorem processScan_invalid_no_output_witness :
    smBad.valid = false ∧ T0.yawOf (1, 0) = 0 ∧ 0 ≤ cfgW.kf_dist_angular ∧
    ((processScan T0 cfgW stW ldpA ldpW 0 none smBad).2.meas_keyframe_base_offset = Tf2.tid ∧
     (processScan T0 cfgW stW ldpA ldpW 0 none smBad).2.pose2d = none ∧
     (processScan T0 cfgW stW ldpA ldpW 0 none smBad).2.pose_stamped = none ∧
     (processScan T0 cfgW stW ldpA ldpW 0 none smBad).2.pose_with_cov = none ∧
     (processScan T0 cfgW stW ldpA ldpW 0 none smBad).2.pose_with_cov_stamped = none ∧
     (processScan T0 cfgW stW ldpA ldpW 0 none smBad).2.tf_broadcast = none ∧
     (processScan T0 cfgW stW ldpA ldpW 0 none smBad).1.last_base_in_fixed =
       stW.last_base_in_fixed ∧
     (processScan T0 cfgW stW ldpA ldpW 0 none smBad).1.prev_ldp = some ldpA ∧
     (processScan T0 cfgW stW ldpA ldpW 0 none smBad).1.keyframe_base_in_fixed =
       stW.keyframe_base_in_fixed) :=
  ⟨rfl, rfl, by norm_num [cfgW],
   processScan_invalid_no_output T0 cfgW stW ldpA ldpW 0 none smBad rfl rfl
     (by norm_num [cfgW])⟩

/-- Claim C4 counterexample: with the cached sensor mount rotated a quarter
turn about z, an identity keyframe pose, and solver covariance
`diag(1, 0)` with zero yaw variance, the published position block is
`diag(0, 1)` (rotated by the keyframe laser heading), while rotating by the
keyframe's own fixed-frame heading - the claim as stated - would leave
`diag(1, 0)` unchanged. -/
theorem covariance_rotation_counterexample :
    (processScan T0 cfgC4 stC4 ldpA ldpA 0 none smC4).2.pose_with_cov =
      some (Tf2.tid, ⟨0, 0, 0, 1⟩, 0) ∧
    ((rotMat stC4.keyframe_base_in_fixed.rot).mul ⟨1, 0, 0, 0⟩).mul
        (rotMat stC4.keyframe_base_in_fixed.rot).transpose = ⟨1, 0, 0, 0⟩ ∧
    (⟨0, 0, 0, 1⟩ : Mat2) ≠ ⟨1, 0, 0, 0⟩ := by
  refine ⟨?_, ?_, ?_⟩
  · norm_num [processScan, getPrediction, newKeyframeNeeded, stC4, cfgC4, cfgW,
      smC4, T0, Tf2.tid, Rot2.rid, Tf2.comp, Rot2.comp, Tf2.inv, Rot2.inv,
      createTfFromXYTheta, getLaserRotation, rotMat, Mat2.mul, Mat2.transpose]
  · norm_num [stC4, Tf2.tid, Rot2.rid, rotMat, Mat2.mul, Mat2.transpose]
  · norm_num [Mat2.mk.injEq]

/-- Claim C4 as amended: when covariance computation is on and the match is
valid, the published 2x2 position block is `R Σxy Rᵀ` where `R` is the
rotation matrix of the heading of the keyframe pose composed with the cached
laser-from-base transform (the keyframe's laser-frame heading, equal to the
keyframe base heading only for a yaw-free sensor mount), and the yaw variance
is the solver's `(2,2)` entry unrotated. -/
theorem processScan_covariance_laser_rotation (T : Trig) (cfg : Cfg) (st : St)
    (prev curr : LDPm) (time : ℚ) (lk : Option Tf2) (sm : SmOut)
    (hv : sm.valid = true) (hc : cfg.do_compute_covariance = true)
    (hp : cfg.publish_pose_with_covariance = true) :
    (processScan T cfg st prev curr time lk sm).2.pose_with_cov =
      some (st.keyframe_base_in_fixed.comp
              ((st.base_from_laser.comp (createTfFromXYTheta T sm.x0 sm.x1 sm.x2)).comp
                st.laser_from_base),
            ((getLaserRotation st.keyframe_base_in_fixed st.laser_from_base).mul
                ⟨sm.cov00, sm.cov01, sm.cov10, sm.cov11⟩).mul
              (getLaserRotation st.keyframe_base_in_fixed st.laser_from_base).transpose,
            sm.cov22) ∧
    getLaserRotation st.keyframe_base_in_fixed st.laser_from_base =
      rotMat ((st.keyframe_base_in_fixed.comp st.laser_from_base).rot) := by
  refine ⟨?_, rfl⟩
  simp [processScan, hv, hc, hp]

theorem processScan_covariance_laser_rotation_witness :
    smC4.valid = true ∧ cfgC4.do_compute_covariance = true ∧
    cfgC4.publish_pose_with_covariance = true ∧
    ((processScan T0 cfgC4 stC4 ldpA ldpA 0 none smC4).2.pose_with_cov =
      some (stC4.keyframe_base_in_fixed.comp
              ((stC4.base_from_laser.comp
                  (createTfFromXYTheta T0 smC4.x0 smC4.x1 smC4.x2)).comp
                stC4.laser_from_base),
            ((getLaserRotation stC4.keyframe_base_in_fixed stC4.laser_from_base).mul
                ⟨smC4.cov00, smC4.cov01, smC4.cov10, smC4.cov11⟩).mul
              (getLaserRotation stC4.keyframe_base_in_fixed stC4.laser_from_base).transpose,
            smC4.cov22) ∧
     getLaserRotation stC4.keyframe_base_in_fixed stC4.laser_from_base =
       rotMat ((stC4.keyframe_base_in_fixed.comp stC4.laser_from_base).rot)) :=
  ⟨rfl, rfl, rfl,
   processScan_covariance_laser_rotation T0 cfgC4 stC4 ldpA ldpA 0 none smC4 rfl rfl rfl⟩

/-- Claim C9: the pipeline is a two-state machine.  While uninitialized, every
reading triggers the static transform query; on failure the reading is dropped
with the state unchanged (so the query retries next reading), on success the
transform and its inverse are cached and the state becomes steady; in the
steady state the static transform is never queried again and there is no
transition back. -/
theorem scanCallback_state_machine (T : Trig) (cfg : Cfg) (st : St)
    (msg : ScanMsg) (staticTf : Option Tf2) (lk : Option Tf2) (sm : SmOut)
    (hne : msg.ranges ≠ [])
    (hprev : st.inited = true → st.prev_ldp ≠ none) :
    ∃ st2 out, scanCallback T cfg st msg staticTf lk sm = some (st2, out) ∧
      (st.inited = false → out.queried_static = true) ∧
      (st.inited = false → staticTf = none →
        st2 = st ∧ out.dropped = true ∧ out.cycle = none) ∧
      (∀ t, st.inited = false → staticTf = some t →
        st2.inited = true ∧ st2.base_from_laser = t ∧ st2.laser_from_base = t.inv) ∧
      (st.inited = true → out.queried_static = false) ∧
      (st.inited = true → st2.inited = true) := by
  obtain ⟨curr, hcurr⟩ := laserScanToLDP_of_ne_nil msg hne
  cases hin : st.inited with
  | false =>
    cases staticTf with
    | none =>
      refine ⟨st, ⟨true, true, none⟩, by simp [scanCallback, hin], ?_, ?_, ?_, ?_, ?_⟩
      · intro _; rfl
      · intro _ _; exact ⟨rfl, rfl, rfl⟩
      · intro t _ hsome; cases hsome
      · intro hT; exact Bool.noConfusion hT
      · intro hT; exact Bool.noConfusion hT
    | some t =>
      have hk := processScan_keeps T cfg (initCache st t curr msg.stamp)
        curr curr msg.stamp lk sm
      refine ⟨(processScan T cfg (initCache st t curr msg.stamp)
          curr curr msg.stamp lk sm).1,
        ⟨true, false, some (processScan T cfg (initCache st t curr msg.stamp)
          curr curr msg.stamp lk sm).2⟩,
        by simp [scanCallback, hin, hcurr], ?_, ?_, ?_, ?_, ?_⟩
      · intro _; rfl
      · intro _ hnone; cases hnone
      · intro t2 _ hsome
        have ht2 : t = t2 := Option.some.inj hsome
        subst ht2
        exact ⟨hk.1, hk.2.1, hk.2.2⟩
      · intro hT; exact Bool.noConfusion hT
      · intro hT; exact Bool.noConfusion hT
  | true =>
    have hp := hprev hin
    cases hpl : st.prev_ldp with
    | none => exact absurd hpl hp
    | some prev =>
      refine ⟨(processScan T cfg st prev curr msg.stamp lk sm).1,
        ⟨false, false, some (processScan T cfg st prev curr msg.stamp lk sm).2⟩,
        by simp [scanCallback, hin, hpl, hcurr], ?_, ?_, ?_, ?_, ?_⟩
      · intro hF; exact Bool.noConfusion hF
      · intro hF _; exact Bool.noConfusion hF
      · intro _ hF _; exact Bool.noConfusion hF
      · intro _; rfl
      · intro _
        have hk := processScan_keeps T cfg st prev curr msg.stamp lk sm
        rw [hk.1, hin]

theorem scanCallback_state_machine_witness :
    scanMsgW.ranges ≠ [] ∧
    (∃ st2 out, scanCallback T0 cfgW stU scanMsgW none none smBad = some (st2, out) ∧
      (stU.inited = false → out.queried_static = true) ∧
      (stU.inited = false → (none : Option Tf2) = none →
        st2 = stU ∧ out.dropped = true ∧ out.cycle = none) ∧
      (∀ t, stU.inited = false → (none : Option Tf2) = some t →
        st2.inited = true ∧ st2.base_from_laser = t ∧ st2.laser_from_base = t.inv) ∧
      (stU.inited = true → out.queried_static = false) ∧
      (stU.inited = true → st2.inited = true)) :=
  ⟨by decide,
   scanCallback_state_machine T0 cfgW stU scanMsgW none none smBad (by decide)
     (fun _ => by decide)⟩

/-- Claim C10: on the first reading for which the static transform resolves,
that same reading is both installed as the reference point set and rebuilt as
the current point set, so the first solver invocation aligns the reading
against itself while the keyframe and last poses are still identity; after the
cycle the reference is that reading. -/
theorem first_scan_self_match (T : Trig) (cfg : Cfg) (st : St) (msg : ScanMsg)
    (lk : Option Tf2) (sm : SmOut) (t : Tf2)
    (hin : st.inited = false)
    (hkf : st.keyframe_base_in_fixed = Tf2.tid)
    (hlast : st.last_base_in_fixed = Tf2.tid)
    (hne : msg.ranges ≠ []) :
    ∃ st2 out cy curr,
      scanCallback T cfg st msg (some t) lk sm = some (st2, out) ∧
      laserScanToLDP msg = some curr ∧
      out.cycle = some cy ∧
      cy.solver_ref = curr ∧ cy.solver_cur = curr ∧
      cy.keyframe_in = Tf2.tid ∧ cy.last_in = Tf2.tid ∧
      st2.prev_ldp = some curr := by
  obtain ⟨curr, hcurr⟩ := laserScanToLDP_of_ne_nil msg hne
  have htr := processScan_trace T cfg (initCache st t curr msg.stamp)
    curr curr msg.stamp lk sm
  refine ⟨(processScan T cfg (initCache st t curr msg.stamp)
      curr curr msg.stamp lk sm).1,
    ⟨true, false, some (processScan T cfg (initCache st t curr msg.stamp)
      curr curr msg.stamp lk sm).2⟩,
    (processScan T cfg (initCache st t curr msg.stamp)
      curr curr msg.stamp lk sm).2, curr,
    by simp [scanCallback, hin, hcurr], hcurr, rfl,
    htr.1, htr.2.1, ?_, ?_,
    processScan_prev_self T cfg (initCache st t curr msg.stamp) curr msg.stamp lk sm⟩
  · rw [htr.2.2.1]
    simpa [initCache] using hkf
  · rw [htr.2.2.2]
    simpa [initCache] using hlast

theorem first_scan_self_match_witness :
    stU.inited = false ∧ stU.keyframe_base_in_fixed = Tf2.tid ∧
    stU.last_base_in_fixed = Tf2.tid ∧ scanMsgW.ranges ≠ [] ∧
    (∃ st2 out cy curr,
      scanCallback T0 cfgW stU scanMsgW (some tfW) none smW = some (st2, out) ∧
      laserScanToLDP scanMsgW = some curr ∧
      out.cycle = some cy ∧
      cy.solver_ref = curr ∧ cy.solver_cur = curr ∧
      cy.keyframe_in = Tf2.tid ∧ cy.last_in = Tf2.tid ∧
      st2.prev_ldp = some curr) :=
  ⟨rfl, rfl, rfl, by decide,
   first_scan_self_match T0 cfgW stU scanMsgW none smW tfW rfl rfl rfl (by decide)⟩

end ScanTools
